import Mathlib

/-!
Shallow embedding of `src/satosa/backends/saml2.py` (class `SamlBackend`),
together with the auxiliary byte-level codecs it relies on
(`base64.urlsafe_b64encode` / `urlsafe_b64decode` and Python's strict
UTF-8 codec), and proofs about the module's behaviour.

Python strings are modelled as Lean `String` (sequences of unicode scalar
values), byte strings as `List Nat` with every element `< 256`, Python
dicts as association lists, and Python exceptions as the `PyErr` type
propagated through `Except`.
-/

namespace Satosa

/-- Python exception classes that can escape the code under study.
`satosaAuthn msg` models `SATOSAAuthenticationError(state, msg)`. -/

inductive PyErr where
  | keyError : String → PyErr
  | indexError : PyErr
  | typeError : PyErr
  | attributeError : PyErr
  | valueError : PyErr
  | binasciiError : PyErr
  | unicodeDecodeError : PyErr
  | satosaAuthn : String → PyErr
deriving DecidableEq, Repr

/-- Python dict subscript `d[k]`: the stored value, or `KeyError` when absent. -/
def dictGet {α : Type} (d : List (String × α)) (k : String) : Except PyErr α :=
  match d.find? (fun p => p.1 = k) with
  | some p => Except.ok p.2
  | none => Except.error (PyErr.keyError k)

/-- Python list subscript `l[i]`: the element, or `IndexError` when out of range. -/
def listGet {α : Type} (l : List α) (i : Nat) : Except PyErr α :=
  match l[i]? with
  | some a => Except.ok a
  | none => Except.error PyErr.indexError

/-! ### `base64.urlsafe_b64encode` / `base64.urlsafe_b64decode`

Byte-level model of the URL-safe base64 codec used at
`saml2.py:89` (`urlsafe_b64decode`) and `saml2.py:310` (`urlsafe_b64encode`).
The alphabet is `A-Z a-z 0-9 - _`, with `=` (61) padding. -/

/-- Ascii code of the URL-safe base64 alphabet character for a 6-bit value. -/
def b64Char (n : Nat) : Nat :=
  if n < 26 then 65 + n
  else if n < 52 then 97 + (n - 26)
  else if n < 62 then 48 + (n - 52)
  else if n = 62 then 45
  else 95

/-- Inverse of the URL-safe base64 alphabet: 6-bit value of an ascii code. -/
def b64CharInv (c : Nat) : Option Nat :=
  if 65 ≤ c ∧ c ≤ 90 then some (c - 65)
  else if 97 ≤ c ∧ c ≤ 122 then some (c - 97 + 26)
  else if 48 ≤ c ∧ c ≤ 57 then some (c - 48 + 52)
  else if c = 45 then some 62
  else if c = 95 then some 63
  else none

/-- Whether an ascii code belongs to the URL-safe base64 alphabet. -/
def isB64Char (c : Nat) : Bool :=
  (b64CharInv c).isSome

/-- `base64.urlsafe_b64encode` on a byte string: 3-byte groups become 4
alphabet characters; a trailing group of 1 or 2 bytes is padded with `=`. -/
def b64encode : List Nat → List Nat
  | [] => []
  | [x] => [b64Char (x / 4), b64Char (x % 4 * 16), 61, 61]
  | [x, y] => [b64Char (x / 4), b64Char (x % 4 * 16 + y / 16), b64Char (y % 16 * 4), 61]
  | x :: y :: z :: rest =>
      b64Char (x / 4) :: b64Char (x % 4 * 16 + y / 16) ::
      b64Char (y % 16 * 4 + z / 64) :: b64Char (z % 64) ::
      b64encode rest

/-- Decode 4-character base64 quads (padding `=` allowed only at the end),
as `binascii.a2b_base64` does after invalid characters were discarded. -/
def decodeQuads : List Nat → Except PyErr (List Nat)
  | [] => Except.ok []
  | [_] => Except.error PyErr.binasciiError
  | [_, _] => Except.error PyErr.binasciiError
  | [_, _, _] => Except.error PyErr.binasciiError
  | c1 :: c2 :: c3 :: c4 :: rest =>
    match b64CharInv c1, b64CharInv c2 with
    | some a, some b =>
      if c3 = 61 then
        if c4 = 61 ∧ rest = [] then Except.ok [a * 4 + b / 16]
        else Except.error PyErr.binasciiError
      else
        match b64CharInv c3 with
        | some d3 =>
          if c4 = 61 then
            if rest = [] then Except.ok [a * 4 + b / 16, b % 16 * 16 + d3 / 4]
            else Except.error PyErr.binasciiError
          else
            match b64CharInv c4 with
            | some d4 =>
              match decodeQuads rest with
              | Except.ok tl =>
                  Except.ok ((a * 4 + b / 16) :: (b % 16 * 16 + d3 / 4) :: (d3 % 4 * 64 + d4) :: tl)
              | Except.error e => Except.error e
            | none => Except.error PyErr.binasciiError
        | none => Except.error PyErr.binasciiError
    | _, _ => Except.error PyErr.binasciiError

/-- `base64.urlsafe_b64decode` on ascii codes: characters outside the
alphabet (other than `=`) are discarded, then the length must be a
multiple of 4 (`binascii.Error` — "incorrect padding" — otherwise),
then the quads are decoded. -/
def b64decodePy (s : List Nat) : Except PyErr (List Nat) :=
  if ((s.filter (fun c => isB64Char c || c == 61)).length % 4 = 0) then
    decodeQuads (s.filter (fun c => isB64Char c || c == 61))
  else Except.error PyErr.binasciiError

/-! ### Python's strict UTF-8 codec (`str.encode("utf-8")` / `bytes.decode("utf-8")`)

Codepoint-level model: encoding turns unicode scalar values into bytes,
decoding validates lead/continuation bytes, rejects overlong forms,
surrogates and values above `0x10FFFF`, exactly as CPython's strict
UTF-8 codec does. -/

/-- UTF-8 encoding of one unicode scalar value. -/
def utf8EncodeChar (c : Nat) : List Nat :=
  if c < 0x80 then [c]
  else if c < 0x800 then [0xC0 + c / 64, 0x80 + c % 64]
  else if c < 0x10000 then [0xE0 + c / 4096, 0x80 + c / 64 % 64, 0x80 + c % 64]
  else [0xF0 + c / 262144, 0x80 + c / 4096 % 64, 0x80 + c / 64 % 64, 0x80 + c % 64]

/-- UTF-8 encoding of a sequence of unicode scalar values. -/
def utf8Encode : List Nat → List Nat
  | [] => []
  | c :: cs => utf8EncodeChar c ++ utf8Encode cs

/-- Strict UTF-8 decoding of a byte sequence into unicode scalar values;
`none` models `UnicodeDecodeError`. -/
def utf8Decode : List Nat → Option (List Nat)
  | [] => some []
  | b :: rest =>
    if b < 0x80 then
      Option.map (fun cs => b :: cs) (utf8Decode rest)
    else
      match rest with
      | [] => none
      | b1 :: rest1 =>
        if b < 0xC2 then none
        else if b < 0xE0 then
          if 0x80 ≤ b1 ∧ b1 < 0xC0 then
            Option.map (fun cs => ((b - 0xC0) * 64 + (b1 - 0x80)) :: cs) (utf8Decode rest1)
          else none
        else
          match rest1 with
          | [] => none
          | b2 :: rest2 =>
            if b < 0xF0 then
              if (0x80 ≤ b1 ∧ b1 < 0xC0) ∧ (0x80 ≤ b2 ∧ b2 < 0xC0) ∧
                  0x800 ≤ (b - 0xE0) * 4096 + (b1 - 0x80) * 64 + (b2 - 0x80) ∧
                  ((b - 0xE0) * 4096 + (b1 - 0x80) * 64 + (b2 - 0x80) < 0xD800 ∨
                    0xE000 ≤ (b - 0xE0) * 4096 + (b1 - 0x80) * 64 + (b2 - 0x80)) then
                Option.map
                  (fun cs => ((b - 0xE0) * 4096 + (b1 - 0x80) * 64 + (b2 - 0x80)) :: cs)
                  (utf8Decode rest2)
              else none
            else
              match rest2 with
              | [] => none
              | b3 :: rest3 =>
                if b < 0xF5 ∧ (0x80 ≤ b1 ∧ b1 < 0xC0) ∧ (0x80 ≤ b2 ∧ b2 < 0xC0) ∧
                    (0x80 ≤ b3 ∧ b3 < 0xC0) ∧
                    0x10000 ≤ (b - 0xF0) * 262144 + (b1 - 0x80) * 4096 +
                      (b2 - 0x80) * 64 + (b3 - 0x80) ∧
                    (b - 0xF0) * 262144 + (b1 - 0x80) * 4096 +
                      (b2 - 0x80) * 64 + (b3 - 0x80) < 0x110000 then
                  Option.map
                    (fun cs => ((b - 0xF0) * 262144 + (b1 - 0x80) * 4096 +
                      (b2 - 0x80) * 64 + (b3 - 0x80)) :: cs)
                    (utf8Decode rest3)
                else none

/-! ### The string-level entity-id codec of `saml2.py`

`get_metadata_desc` (line 310) emits
`urlsafe_b64encode(entity_id.encode("utf-8")).decode("utf-8")` and
`start_auth` (line 89) consumes `urlsafe_b64decode(entity_id).decode("utf-8")`.
Python strings are Lean `String`s; `Char.toNat` is the scalar value. -/

/-- `entity_id.encode("utf-8")` — the UTF-8 bytes of a Python string. -/
def utf8EncodeStr (s : String) : List Nat :=
  utf8Encode (s.data.map Char.toNat)

/-- `urlsafe_b64encode(entity_id.encode("utf-8")).decode("utf-8")` at
`saml2.py:310`; the base64 output is ascii, so the final utf-8 decode
is just reading the ascii codes back as characters. -/
def encodeEntityId (entity_id : String) : String :=
  String.mk ((b64encode (utf8EncodeStr entity_id)).map Char.ofNat)

/-- `base64`'s `_bytes_from_decode_data` on a `str` argument: ascii-encode,
raising `ValueError` on non-ascii input. -/
def asciiEncode (s : String) : Except PyErr (List Nat) :=
  if (s.data.map Char.toNat).all (fun c => c < 128) then Except.ok (s.data.map Char.toNat)
  else Except.error PyErr.valueError

/-- `bytes.decode("utf-8")` — strict UTF-8 decode of bytes into a string;
`UnicodeDecodeError` on invalid input. -/
def utf8DecodeStr (bs : List Nat) : Except PyErr String :=
  match utf8Decode bs with
  | some cps => Except.ok (String.mk (cps.map Char.ofNat))
  | none => Except.error PyErr.unicodeDecodeError

/-- `urlsafe_b64decode(entity_id).decode("utf-8")` at `saml2.py:89`. -/
def decodeEntityHint (s : String) : Except PyErr String := do
  let bytes ← asciiEncode s
  let decoded ← b64decodePy bytes
  utf8DecodeStr decoded

/-! ### The `SamlBackend` data model

External pysaml2 capabilities (`Base.pick_binding`, `create_authn_request`,
`apply_binding`, `parse_authn_request_response`,
`create_discovery_service_request`) and the downstream callback are
oracles: arbitrary functions carried in the structures, quantified over
in the theorems. -/

/-- `saml2.BINDING_HTTP_REDIRECT`. -/
def BINDING_HTTP_REDIRECT : String := "urn:oasis:names:tc:SAML:2.0:bindings:HTTP-Redirect"

/-- `saml2.BINDING_HTTP_POST`. -/
def BINDING_HTTP_POST : String := "urn:oasis:names:tc:SAML:2.0:bindings:HTTP-POST"

/-- `self.bindings = [BINDING_HTTP_REDIRECT, BINDING_HTTP_POST]` (`saml2.py:57`). -/
def samlBackendBindings : List String := [BINDING_HTTP_REDIRECT, BINDING_HTTP_POST]

/-- `saml2.samlp.NameIDPolicy(format=...)`. -/
structure NameIDPolicy where
  format : String
deriving DecidableEq

/-- The dict returned by pysaml2's `apply_binding`: a `headers` list of
(name, value) pairs and a `data` body. -/
structure HtArgs where
  headers : List (String × String)
  data : String
deriving DecidableEq

/-- The fields of a parsed `saml2.response.AuthnResponse` that
`_translate_response` reads: `authn_info()` entries (class ref plus
authenticating authorities), the authn statement instants, the response
issuer text, the subject text and the attribute dict `ava`. -/
structure SamlAuthnResponse where
  authn_info : List (String × List String)
  authn_instants : List String
  issuer_text : String
  subject_text : String
  ava : List (String × List String)
deriving DecidableEq

/-- `satosa.internal_data.AuthenticationInformation`. -/
structure AuthenticationInformation where
  auth_class_ref : String
  timestamp : String
  issuer : String
deriving DecidableEq

/-- `satosa.internal_data.InternalResponse`, as populated by
`_translate_response`. -/
structure InternalResponse where
  auth_info : AuthenticationInformation
  user_id : String
  attributes : List (String × List String)
deriving DecidableEq

/-- Modelled from the spec: `satosa.internal_data.InternalRequest` is not
part of this source file; the spec says an internal request "may carry no
identifying data", and `disco_response` builds `InternalRequest(None, None)`. -/
structure InternalRequest where
  user_id_hash_type : Option String
  requestor : Option String
deriving DecidableEq

/-- `InternalRequest(None, None)` (`saml2.py:226`). -/
def emptyInternalRequest : InternalRequest :=
  { user_id_hash_type := none, requestor := none }

/-- The responses the backend can return: `SeeOther(location)` or
`Response(data, headers=...)`. -/
inductive Resp where
  | seeOther : String → Resp
  | response : String → List (String × String) → Resp
deriving DecidableEq

/-- Modelled from the spec: the session-state store (`satosa.state.State`
is not part of this source file). The spec describes it as an opaque
per-attempt key-value store: `add` stores a value under a key,
"unconditionally replacing any previous value", `get` reads the stored
value, `remove` clears the key. -/
abbrev State : Type := List (String × String)

/-- Modelled from the spec: `state.get(key)` — the stored token, if any. -/
def State.get (s : State) (k : String) : Option String :=
  (s.find? (fun p => p.1 = k)).map Prod.snd

/-- Modelled from the spec: `state.add(key, value)` — store, replacing any
previous value for the key. -/
def State.add (s : State) (k v : String) : State :=
  (k, v) :: s.filter (fun p => p.1 ≠ k)

/-- Modelled from the spec: `state.remove(key)` — clear the key. -/
def State.remove (s : State) (k : String) : State :=
  s.filter (fun p => p.1 ≠ k)

/-- The per-request `satosa.context.Context`: `internal_data` (carries the
mirrored-entity hint), `request` (the parsed query/form parameters) and
`state` (the session store). `rnd` determinizes `util.rndstr()`: the
fresh token that call returns during this request. -/
structure Context where
  internal_data : List (String × String)
  request : List (String × String)
  state : State
  rnd : String

/-- The pysaml2 `Base` client capabilities consumed by `SamlBackend`, plus
the relevant parts of its `SPConfig`: metadata IdPs, own entity id, and
the `endpoints` config sections (`None` models an absent config key). -/
structure SPCap where
  identity_providers : List String
  entityid : String
  acs_endpoints : Option (List (String × String))
  discovery_response_endpoints : Option (List (String × String))
  pick_binding : List String → String → Except PyErr (String × String)
  create_authn_request : String → String → NameIDPolicy → Except PyErr (String × String)
  apply_binding : String → String → String → String → Except PyErr HtArgs
  parse_authn_request_response : String → String → Except PyErr SamlAuthnResponse
  create_discovery_service_request : Option String → String → String → String

/-- The `SamlBackend` instance: plugin name, the pysaml2 client, the
config values read by the methods, and the external collaborators
(`satosa.util.get_saml_name_id_format`, the attribute converter's
`to_internal`, and the downstream `auth_callback_func`). -/
structure SamlBackend where
  name : String
  sp : SPCap
  hash_type_config : Option String
  attribute_profile : String
  discosrv : Option String
  get_saml_name_id_format : String → String
  to_internal : String → List (String × List String) → List (String × List String)
  auth_callback_func : InternalResponse → Resp

/-- The `for param, value in ht_args["headers"]` loop of
`authn_request` (`saml2.py:159-162`): the first "Location" header. -/
def findLocation (headers : List (String × String)) : Option String :=
  (headers.find? (fun p => p.1 = "Location")).map Prod.snd

/-- `SamlBackend._create_name_id_policy` (`saml2.py:60-72`). -/
def create_name_id_policy (be : SamlBackend) (usr_id_hash_type : String) : NameIDPolicy :=
  { format := be.get_saml_name_id_format usr_id_hash_type }

/-- The `try` block of `authn_request` (`saml2.py:133-150`): pick a
binding, read the ACS endpoints (`KeyError`/`IndexError` possible),
build the request, apply the binding with the fresh relay state
`ctx.rnd`. Returns the chosen binding and the binding arguments. -/
def authn_request_try (be : SamlBackend) (ctx : Context) (entity_id : String) :
    Except PyErr (String × HtArgs) :=
  match be.sp.pick_binding samlBackendBindings entity_id with
  | Except.error e => Except.error e
  | Except.ok pb =>
    match be.sp.acs_endpoints with
    | none => Except.error (PyErr.keyError "assertion_consumer_service")
    | some acs =>
      match listGet acs 0 with
      | Except.error e => Except.error e
      | Except.ok acs0 =>
        match be.sp.create_authn_request pb.2 acs0.2
            (create_name_id_policy be (be.hash_type_config.getD "persistent")) with
        | Except.error e => Except.error e
        | Except.ok car =>
          match be.sp.apply_binding pb.1 car.2 pb.2 ctx.rnd with
          | Except.error e => Except.error e
          | Except.ok ht => Except.ok (pb.1, ht)

/-- `SamlBackend.authn_request` (`saml2.py:114-169`): the `try` whose
`except Exception` converts any failure into
`SATOSAAuthenticationError("Failed to construct the AuthnRequest")`;
only then is the relay state stored in the session, and only then is the
response serialized per binding. Returns the outcome together with the
session state as left by the call. -/
def authn_request (be : SamlBackend) (ctx : Context) (entity_id : String)
    (internal_req : InternalRequest) : Except PyErr Resp × State :=
  match authn_request_try be ctx entity_id with
  | Except.error _ =>
      (Except.error (PyErr.satosaAuthn "Failed to construct the AuthnRequest"), ctx.state)
  | Except.ok (bnd, ht) =>
      if bnd = BINDING_HTTP_REDIRECT then
        match findLocation ht.headers with
        | some loc => (Except.ok (Resp.seeOther loc), State.add ctx.state be.name ctx.rnd)
        | none => (Except.error (PyErr.satosaAuthn "Parameter error"),
            State.add ctx.state be.name ctx.rnd)
      else
        (Except.ok (Resp.response ht.data ht.headers), State.add ctx.state be.name ctx.rnd)

/-- `SamlBackend.disco_query` (`saml2.py:94-112`). -/
def disco_query (be : SamlBackend) (ctx : Context) (internal_req : InternalRequest) :
    Except PyErr Resp × State :=
  match be.sp.discovery_response_endpoints with
  | none => (Except.error (PyErr.keyError "discovery_response"), ctx.state)
  | some disco_resp =>
    match listGet disco_resp 0 with
    | Except.error e => (Except.error e, ctx.state)
    | Except.ok first =>
      (Except.ok (Resp.seeOther
        (be.sp.create_discovery_service_request be.discosrv be.sp.entityid first.1)), ctx.state)

/-- `SamlBackend.start_auth` (`saml2.py:74-92`): single-IdP bypass, then
the mirrored-entity hint inside `try ... except KeyError`, whose handler
delegates to `disco_query`. A hint that fails base64 or UTF-8 decoding
raises an exception other than `KeyError`, which the `except` clause does
not catch. -/
def start_auth (be : SamlBackend) (ctx : Context) (internal_req : InternalRequest) :
    Except PyErr Resp × State :=
  if be.sp.identity_providers.length = 1 then
    authn_request be ctx (be.sp.identity_providers.getD 0 "") internal_req
  else
    match dictGet ctx.internal_data "mirror.target_entity_id" with
    | Except.error (PyErr.keyError _) => disco_query be ctx internal_req
    | Except.error e => (Except.error e, ctx.state)
    | Except.ok enc =>
      match decodeEntityHint enc with
      | Except.error (PyErr.keyError _) => disco_query be ctx internal_req
      | Except.error e => (Except.error e, ctx.state)
      | Except.ok entity_id =>
        match authn_request be ctx entity_id internal_req with
        | (Except.error (PyErr.keyError _), st) =>
            disco_query be { ctx with state := st } internal_req
        | r => r

/-- `SamlBackend._translate_response` (`saml2.py:229-252`). -/
def translate_response (be : SamlBackend) (r : SamlAuthnResponse) :
    Except PyErr InternalResponse := do
  let ai ← listGet r.authn_info 0
  let timestamp ← listGet r.authn_instants 0
  let issuer := r.issuer_text
  let auth_class_ref := ai.1
  Except.ok
    { auth_info := { auth_class_ref := auth_class_ref, timestamp := timestamp, issuer := issuer }
      user_id := r.subject_text
      attributes := be.to_internal be.attribute_profile r.ava }

/-- `SamlBackend.authn_response` (`saml2.py:171-205`): require a non-empty
`SAMLResponse` (a missing key raises `KeyError` from the dict subscript),
parse it, compare the stored relay state against the echoed `RelayState`,
and only on a match clear the stored token and call the downstream
callback. Returns the outcome together with the session state as left by
the call. -/
def authn_response (be : SamlBackend) (ctx : Context) (binding : String) :
    Except PyErr Resp × State :=
  match dictGet ctx.request "SAMLResponse" with
  | Except.error e => (Except.error e, ctx.state)
  | Except.ok saml_response =>
    if saml_response = "" then
      (Except.error (PyErr.satosaAuthn "Missing Response"), ctx.state)
    else
      match be.sp.parse_authn_request_response saml_response binding with
      | Except.error _ =>
          (Except.error (PyErr.satosaAuthn "Failed to parse authn request"), ctx.state)
      | Except.ok response =>
        match dictGet ctx.request "RelayState" with
        | Except.error e => (Except.error e, ctx.state)
        | Except.ok relay =>
          if State.get ctx.state be.name ≠ some relay then
            (Except.error (PyErr.satosaAuthn "State did not match relay state"), ctx.state)
          else
            match translate_response be response with
            | Except.error e => (Except.error e, State.remove ctx.state be.name)
            | Except.ok internal_resp =>
                (Except.ok (be.auth_callback_func internal_resp),
                  State.remove ctx.state be.name)

/-- `SamlBackend.disco_response` (`saml2.py:207-227`): read `entityID`
from the request parameters inside `try ... except KeyError`, and on
success re-enter `authn_request` with `InternalRequest(None, None)`. -/
def disco_response (be : SamlBackend) (ctx : Context) : Except PyErr Resp × State :=
  match dictGet ctx.request "entityID" with
  | Except.error (PyErr.keyError _) =>
      (Except.error (PyErr.satosaAuthn "No IDP chosen"), ctx.state)
  | Except.error e => (Except.error e, ctx.state)
  | Except.ok entity_id => authn_request be ctx entity_id emptyInternalRequest

/-! ### `get_metadata_desc` (`saml2.py:289-371`)

The entity metadata walked by `get_metadata_desc` is an arbitrary nested
Python value (pysaml2's dict-of-dicts representation), modelled by
`PyVal` with Python's subscript / `.get` / `in` / iteration semantics. -/

/-- A Python value in the entity-metadata tree: a string, a number, a
dict with string keys, or a list. -/
inductive PyVal where
  | str : String → PyVal
  | num : Nat → PyVal
  | dict : List (String × PyVal) → PyVal
  | list : List PyVal → PyVal

/-- Python `v == some_string`: true only for an equal `str`. -/
def pyEqStr (v : PyVal) (s : String) : Bool :=
  match v with
  | PyVal.str t => t == s
  | _ => false

/-- Python subscript `v[k]` with a string key: dict lookup (`KeyError` on
a missing key) or `TypeError` on non-dicts. -/
def PyVal.getItem : PyVal → String → Except PyErr PyVal
  | PyVal.dict d, k => dictGet d k
  | _, _ => Except.error PyErr.typeError

/-- Python `v.get(k, default)`: only dicts have `.get`; any other value
raises `AttributeError`. -/
def PyVal.getDefault : PyVal → String → PyVal → Except PyErr PyVal
  | PyVal.dict d, k, dflt =>
    match d.find? (fun p => p.1 = k) with
    | some p => Except.ok p.2
    | none => Except.ok dflt
  | _, _, _ => Except.error PyErr.attributeError

/-- Whether `needle` occurs as a substring of `hay` (Python `in` on `str`). -/
def strContainsSub (hay needle : String) : Bool :=
  (List.range (hay.data.length + 1)).any (fun i => needle.data.isPrefixOf (hay.data.drop i))

/-- Python `k in v` for a string `k`: key test on dicts, membership on
lists, substring test on strings, `TypeError` on numbers. -/
def PyVal.hasKey (v : PyVal) (k : String) : Except PyErr Bool :=
  match v with
  | PyVal.dict d => Except.ok (d.any (fun p => p.1 == k))
  | PyVal.list l => Except.ok (l.any (fun e => pyEqStr e k))
  | PyVal.str t => Except.ok (strContainsSub t k)
  | PyVal.num _ => Except.error PyErr.typeError

/-- Python `for x in v`: keys of a dict, elements of a list, characters of
a string, `TypeError` on numbers. -/
def PyVal.toIter : PyVal → Except PyErr (List PyVal)
  | PyVal.dict d => Except.ok (d.map (fun p => PyVal.str p.1))
  | PyVal.list l => Except.ok l
  | PyVal.str t => Except.ok (t.data.map (fun c => PyVal.str (String.mk [c])))
  | PyVal.num _ => Except.error PyErr.typeError

/-- `saml2.extension.ui.NAMESPACE`. -/
def UI_NAMESPACE : String := "urn:oasis:names:tc:SAML:metadata:ui"

/-- Modelled from the spec: `MetadataDescription`'s `OrganizationDesc`
(module `satosa.metadata_creation.description`, not in this source file) —
organization names, display names and URLs, each a (text, language) pair. -/
structure OrganizationDesc where
  names : List (PyVal × PyVal)
  display_names : List (PyVal × PyVal)
  urls : List (PyVal × PyVal)

/-- Modelled from the spec: `ContactPersonDesc` — contact type, email
addresses, given name and surname, each independently optional. -/
structure ContactPersonDesc where
  contact_type : Option PyVal
  email_address : List PyVal
  given_name : Option PyVal
  sur_name : Option PyVal

/-- Modelled from the spec: `UIInfoDesc` — descriptions, display names and
logos (text, width, height, language). -/
structure UIInfoDesc where
  descriptions : List (PyVal × PyVal)
  display_names : List (PyVal × PyVal)
  logos : List (PyVal × PyVal × PyVal × PyVal)

/-- Modelled from the spec: `MetadataDescription`, keyed by the
URL-safe-encoded entity id, with every section independently optional. -/
structure MetadataDescription where
  entity_id : String
  organization : Option OrganizationDesc
  contact_persons : List ContactPersonDesc
  ui_info : Option UIInfoDesc

/-- The organization `try` block body (`saml2.py:313-325`): everything up
to and including `set_organization`, in source order. -/
def buildOrganization (entity : PyVal) (entity_id : String) :
    Except PyErr OrganizationDesc :=
  match entity.getItem entity_id with
  | Except.error e => Except.error e
  | Except.ok ev =>
    match ev.getItem "organization" with
    | Except.error e => Except.error e
    | Except.ok organization_info => do
      let namesSrc ← organization_info.getDefault "organization_name" (PyVal.list [])
      let nameIter ← namesSrc.toIter
      let names ← nameIter.mapM (fun ni => do
        let t ← ni.getItem "text"
        let l ← ni.getItem "lang"
        Except.ok (t, l))
      let dnamesSrc ← organization_info.getDefault "organization_display_name" (PyVal.list [])
      let dnameIter ← dnamesSrc.toIter
      let dnames ← dnameIter.mapM (fun ni => do
        let t ← ni.getItem "text"
        let l ← ni.getItem "lang"
        Except.ok (t, l))
      let urlsSrc ← organization_info.getDefault "organization_url" (PyVal.list [])
      let urlIter ← urlsSrc.toIter
      let urls ← urlIter.mapM (fun ni => do
        let t ← ni.getItem "text"
        let l ← ni.getItem "lang"
        Except.ok (t, l))
      Except.ok { names := names, display_names := dnames, urls := urls }

/-- The organization `try` block with its bare `except: pass`
(`saml2.py:326-327`): any failure leaves the description unchanged. -/
def addOrganization (desc : MetadataDescription) (entity : PyVal) (entity_id : String) :
    MetadataDescription :=
  match buildOrganization entity entity_id with
  | Except.ok org => { desc with organization := some org }
  | Except.error _ => desc

/-- One iteration of the contact-person loop body (`saml2.py:332-342`). -/
def buildContactPerson (cont_pers : PyVal) : Except PyErr ContactPersonDesc := do
  let hasCt ← cont_pers.hasKey "contact_type"
  let ct ← if hasCt then do
      let v ← cont_pers.getItem "contact_type"
      Except.ok (some v)
    else Except.ok (none : Option PyVal)
  let emailsSrc ← cont_pers.getDefault "email_address" (PyVal.list [])
  let emailIter ← emailsSrc.toIter
  let emails ← emailIter.mapM (fun a => a.getItem "text")
  let hasGn ← cont_pers.hasKey "given_name"
  let gn ← if hasGn then do
      let v ← cont_pers.getItem "given_name"
      let t ← v.getItem "text"
      Except.ok (some t)
    else Except.ok (none : Option PyVal)
  let hasSn ← cont_pers.hasKey "sur_name"
  let sn ← if hasSn then do
      let v ← cont_pers.getItem "sur_name"
      let t ← v.getItem "text"
      Except.ok (some t)
    else Except.ok (none : Option PyVal)
  Except.ok { contact_type := ct, email_address := emails, given_name := gn, sur_name := sn }

/-- The contact-person loop (`saml2.py:332-344`):
`description.add_contact_person` runs per iteration, so persons built
before a failure stay added; the failure is reported alongside. -/
def contactsFold (desc : MetadataDescription) :
    List PyVal → MetadataDescription × Option PyErr
  | [] => (desc, none)
  | p :: ps =>
    match buildContactPerson p with
    | Except.ok person =>
        contactsFold { desc with contact_persons := desc.contact_persons ++ [person] } ps
    | Except.error e => (desc, some e)

/-- The contact-person `try` block with its `except KeyError: pass`
(`saml2.py:330-346`): only `KeyError` is caught; any other exception
propagates. -/
def addContacts (desc : MetadataDescription) (entity : PyVal) (entity_id : String) :
    Except PyErr MetadataDescription :=
  match (match entity.getItem entity_id with
    | Except.error e => Except.error e
    | Except.ok ev =>
      match ev.getItem "contact_person" with
      | Except.error e => Except.error e
      | Except.ok contact_persons => contact_persons.toIter) with
  | Except.error (PyErr.keyError _) => Except.ok desc
  | Except.error e => Except.error e
  | Except.ok persons =>
    match contactsFold desc persons with
    | (desc2, none) => Except.ok desc2
    | (desc2, some (PyErr.keyError _)) => Except.ok desc2
    | (_, some e) => Except.error e

/-- One ui element (`saml2.py:355-364`): skipped unless its `__class__`
is the IdP-UI extension class, otherwise its descriptions, display names
and logos are added. -/
def uiApplyElement (ui : UIInfoDesc) (element : PyVal) : Except PyErr UIInfoDesc := do
  let cls ← element.getItem "__class__"
  if pyEqStr cls (UI_NAMESPACE ++ "&UIInfo") = false then Except.ok ui
  else do
    let descsSrc ← element.getDefault "description" (PyVal.list [])
    let descIter ← descsSrc.toIter
    let descs ← descIter.mapM (fun d => do
      let t ← d.getItem "text"
      let l ← d.getItem "lang"
      Except.ok (t, l))
    let dnamesSrc ← element.getDefault "display_name" (PyVal.list [])
    let dnameIter ← dnamesSrc.toIter
    let dnames ← dnameIter.mapM (fun d => do
      let t ← d.getItem "text"
      let l ← d.getItem "lang"
      Except.ok (t, l))
    let logosSrc ← element.getDefault "logo" (PyVal.list [])
    let logoIter ← logosSrc.toIter
    let logos ← logoIter.mapM (fun lg => do
      let t ← lg.getItem "text"
      let w ← lg.getItem "width"
      let h ← lg.getItem "height"
      let la ← lg.getItem "lang"
      Except.ok (t, w, h, la))
    Except.ok { descriptions := ui.descriptions ++ descs
                display_names := ui.display_names ++ dnames
                logos := ui.logos ++ logos }

/-- One idpsso descriptor (`saml2.py:350-366`): walk its extension
elements into a fresh `UIInfoDesc` and set it on the description. -/
def uiApplyDescriptor (desc : MetadataDescription) (idpsso_desc : PyVal) :
    Except PyErr MetadataDescription := do
  let exts ← idpsso_desc.getItem "extensions"
  let ui_elements ← exts.getItem "extension_elements"
  let elemIter ← ui_elements.toIter
  let ui ← List.foldlM uiApplyElement
    { descriptions := [], display_names := [], logos := [] } elemIter
  Except.ok { desc with ui_info := some ui }

/-- The descriptor loop (`saml2.py:350-366`): `set_ui_info` runs per
descriptor, so earlier descriptors' ui info stays set when a later one
fails; the failure is reported alongside. -/
def uiFold (desc : MetadataDescription) : List PyVal → MetadataDescription × Option PyErr
  | [] => (desc, none)
  | d :: ds =>
    match uiApplyDescriptor desc d with
    | Except.ok desc2 => uiFold desc2 ds
    | Except.error e => (desc, some e)

/-- The ui `try` block with its `except KeyError: pass`
(`saml2.py:349-368`): only `KeyError` is caught. -/
def addUIInfo (desc : MetadataDescription) (entity : PyVal) (entity_id : String) :
    Except PyErr MetadataDescription :=
  match (match entity.getItem entity_id with
    | Except.error e => Except.error e
    | Except.ok ev =>
      match ev.getItem "idpsso_descriptor" with
      | Except.error e => Except.error e
      | Except.ok descriptors => descriptors.toIter) with
  | Except.error (PyErr.keyError _) => Except.ok desc
  | Except.error e => Except.error e
  | Except.ok descriptors =>
    match uiFold desc descriptors with
    | (desc2, none) => Except.ok desc2
    | (desc2, some (PyErr.keyError _)) => Except.ok desc2
    | (_, some e) => Except.error e

/-- The per-entity body of `get_metadata_desc` (`saml2.py:307-370`):
a description keyed by the encoded entity id, with the organization,
contact-person and ui sections each behind its own `try`. -/
def buildDescription (entity : PyVal) (entity_id : String) :
    Except PyErr MetadataDescription := do
  let d2 ← addContacts
    (addOrganization
      { entity_id := encodeEntityId entity_id
        organization := none
        contact_persons := []
        ui_info := none }
      entity entity_id)
    entity entity_id
  addUIInfo d2 entity entity_id

/-- One metadata source held by `self.sp.metadata.metadata`
(`saml2.py:296-306`): either a single entity descriptor or a collection,
plus the `entity` dict mapping entity ids to their metadata. -/
structure MetadataFile where
  entity_descr : Option String
  entities_descr : List String
  entity : PyVal

/-- The entity-id collection loop (`saml2.py:298-304`). -/
def metadataEntityIds (f : MetadataFile) : List String :=
  match f.entity_descr with
  | none => f.entities_descr
  | some e => [e]

/-- `SamlBackend.get_metadata_desc` (`saml2.py:289-371`): one description
per entity of every metadata source; an uncaught exception in any entity
aborts the whole listing. -/
def get_metadata_desc (files : List MetadataFile) :
    Except PyErr (List MetadataDescription) := do
  let descs ← files.mapM (fun f => (metadataEntityIds f).mapM (buildDescription f.entity))
  Except.ok descs.flatten

/-! ### Concrete fixtures for witnesses and counterexamples -/

/-- A well-formed parsed response for the oracle fixtures. -/
def respOk : SamlAuthnResponse :=
  { authn_info := [("urn:oasis:names:tc:SAML:2.0:ac:classes:Password", [])]
    authn_instants := ["2015-01-01T00:00:00Z"]
    issuer_text := "https://idp1.example/metadata"
    subject_text := "user-1"
    ava := [("givenName", ["A"])] }

/-- A two-IdP SP configuration with well-behaved oracles. -/
def spBase : SPCap :=
  { identity_providers := ["https://idp1.example", "https://idp2.example"]
    entityid := "https://sp.example"
    acs_endpoints := some [("https://sp.example/acs/post", BINDING_HTTP_POST)]
    discovery_response_endpoints := some [("https://sp.example/disco", "disco-binding")]
    pick_binding := fun _ _ => Except.ok (BINDING_HTTP_REDIRECT, "https://idp1.example/sso")
    create_authn_request := fun _ _ _ => Except.ok ("id-1", "authn-request-xml")
    apply_binding := fun _ _ _ _ =>
      Except.ok { headers := [("Location", "https://idp1.example/sso?SAMLRequest=x")]
                  data := "" }
    parse_authn_request_response := fun _ _ => Except.ok respOk
    create_discovery_service_request := fun _ _ ret =>
      String.append "https://disco.example/?return=" ret }

/-- A backend over `spBase` named "Saml2". -/
def beBase : SamlBackend :=
  { name := "Saml2"
    sp := spBase
    hash_type_config := none
    attribute_profile := "saml"
    discosrv := some "https://disco.example"
    get_saml_name_id_format := fun _ => "urn:oasis:names:tc:SAML:2.0:nameid-format:persistent"
    to_internal := fun _ ava => ava
    auth_callback_func := fun _ => Resp.response "downstream" [] }

/-- The same backend with a single IdP in the metadata. -/
def beSingle : SamlBackend :=
  { beBase with sp := { spBase with identity_providers := ["https://idp1.example"] } }

/-- A backend whose binding negotiation fails. -/
def beFail : SamlBackend :=
  { beBase with sp := { spBase with pick_binding := fun _ _ => Except.error PyErr.typeError } }

/-- A context with nothing in it. -/
def ctxEmpty : Context :=
  { internal_data := [], request := [], state := [], rnd := "fresh-token" }

/-- A callback request echoing a relay state different from the stored one. -/
def ctxMismatch : Context :=
  { internal_data := []
    request := [("SAMLResponse", "resp"), ("RelayState", "relay-X")]
    state := [("Saml2", "relay-Y")]
    rnd := "fresh-token" }

/-- A callback request echoing exactly the stored relay state. -/
def ctxMatch : Context :=
  { internal_data := []
    request := [("SAMLResponse", "resp"), ("RelayState", "relay-Y")]
    state := [("Saml2", "relay-Y")]
    rnd := "fresh-token" }

/-- A context carrying a mirrored-entity hint that is not valid base64. -/
def ctxBadHint : Context :=
  { internal_data := [("mirror.target_entity_id", "a")]
    request := []
    state := []
    rnd := "fresh-token" }

/-- A callback request whose parameters lack the `SAMLResponse` key. -/
def ctxNoSamlKey : Context :=
  { internal_data := [], request := [("RelayState", "X")], state := [], rnd := "fresh-token" }

/-- A callback request whose `SAMLResponse` value is empty. -/
def ctxEmptySaml : Context :=
  { internal_data := [], request := [("SAMLResponse", "")], state := [], rnd := "fresh-token" }

/-- A callback request for a session that was never issued a token. -/
def ctxNoToken : Context :=
  { internal_data := []
    request := [("SAMLResponse", "resp"), ("RelayState", "relay-X")]
    state := []
    rnd := "fresh-token" }

/-- A discovery return carrying a chosen entity id. -/
def ctxDiscoChoice : Context :=
  { internal_data := []
    request := [("entityID", "https://idp2.example")]
    state := []
    rnd := "fresh-token" }

/-- An entity whose `contact_person` metadata is malformed (a number). -/
def entityBad : PyVal :=
  PyVal.dict [("https://idp1.example", PyVal.dict [("contact_person", PyVal.num 0)])]

/-- A metadata source holding only `entityBad`. -/
def fileBad : MetadataFile :=
  { entity_descr := some "https://idp1.example", entities_descr := [], entity := entityBad }

/-- An entity with none of the organization / contact / ui sections. -/
def entityPlain : PyVal :=
  PyVal.dict [("https://idp1.example", PyVal.dict [("other", PyVal.num 1)])]

/-! ### Properties of the codecs -/

theorem b64CharInv_b64Char : ∀ n : Nat, n < 64 → b64CharInv (b64Char n) = some n := by
  decide

theorem b64Char_lt : ∀ n : Nat, n < 64 → b64Char n < 128 := by
  decide

theorem b64Char_ne_pad : ∀ n : Nat, n < 64 → b64Char n ≠ 61 := by
  decide

theorem isB64Char_b64Char (n : Nat) (h : n < 64) : isB64Char (b64Char n) = true := by
  unfold isB64Char
  rw [b64CharInv_b64Char n h]
  rfl

/-- Every character emitted by `b64encode` on bytes is an alphabet character or `=`. -/
theorem b64encode_chars :
    ∀ bs : List Nat, (∀ b ∈ bs, b < 256) →
      ∀ c ∈ b64encode bs, ((∃ n, n < 64 ∧ c = b64Char n) ∨ c = 61) := by
  have main : ∀ (n : Nat) (bs : List Nat), bs.length ≤ n → (∀ b ∈ bs, b < 256) →
      ∀ c ∈ b64encode bs, ((∃ m, m < 64 ∧ c = b64Char m) ∨ c = 61) := by
    intro n
    induction n with
    | zero =>
      intro bs hlen _
      have hbs : bs = [] := List.eq_nil_of_length_eq_zero (Nat.le_zero.mp hlen)
      subst hbs
      intro c hc
      simp [b64encode] at hc
    | succ n ih =>
      intro bs hlen hb c hc
      rcases bs with _ | ⟨x, _ | ⟨y, _ | ⟨z, rest⟩⟩⟩
      · simp [b64encode] at hc
      · have hx : x < 256 := hb x (by simp)
        simp only [b64encode, List.mem_cons, List.mem_singleton] at hc
        rcases hc with h | h | h | h | h
        · exact Or.inl ⟨x / 4, by omega, h⟩
        · exact Or.inl ⟨x % 4 * 16, by omega, h⟩
        · exact Or.inr h
        · exact Or.inr h
        · simp at h
      · have hx : x < 256 := hb x (by simp)
        have hy : y < 256 := hb y (by simp)
        simp only [b64encode, List.mem_cons, List.mem_singleton] at hc
        rcases hc with h | h | h | h | h
        · exact Or.inl ⟨x / 4, by omega, h⟩
        · exact Or.inl ⟨x % 4 * 16 + y / 16, by omega, h⟩
        · exact Or.inl ⟨y % 16 * 4, by omega, h⟩
        · exact Or.inr h
        · simp at h
      · have hx : x < 256 := hb x (by simp)
        have hy : y < 256 := hb y (by simp)
        have hz : z < 256 := hb z (by simp)
        simp only [b64encode, List.mem_cons] at hc
        rcases hc with h | h | h | h | h
        · exact Or.inl ⟨x / 4, by omega, h⟩
        · exact Or.inl ⟨x % 4 * 16 + y / 16, by omega, h⟩
        · exact Or.inl ⟨y % 16 * 4 + z / 64, by omega, h⟩
        · exact Or.inl ⟨z % 64, by omega, h⟩
        · refine ih rest (by simp [List.length_cons] at hlen ⊢; omega) ?_ c h
          intro b hbm
          exact hb b (by simp [hbm])
  intro bs hbs
  exact main bs.length bs le_rfl hbs

/-- `b64decodePy`'s character filter keeps every character of `b64encode`. -/
theorem b64encode_filter (bs : List Nat) (hbs : ∀ b ∈ bs, b < 256) :
    (b64encode bs).filter (fun c => isB64Char c || c == 61) = b64encode bs := by
  apply List.filter_eq_self.mpr
  intro c hc
  rcases b64encode_chars bs hbs c hc with ⟨m, hm, hcm⟩ | hpad
  · subst hcm
    simp [isB64Char_b64Char m hm]
  · subst hpad
    simp

/-- The length of a `b64encode` output is a multiple of 4. -/
theorem b64encode_length (bs : List Nat) : (b64encode bs).length % 4 = 0 := by
  have main : ∀ (n : Nat) (bs : List Nat), bs.length ≤ n → (b64encode bs).length % 4 = 0 := by
    intro n
    induction n with
    | zero =>
      intro bs hlen
      have hbs : bs = [] := List.eq_nil_of_length_eq_zero (Nat.le_zero.mp hlen)
      subst hbs
      rfl
    | succ n ih =>
      intro bs hlen
      rcases bs with _ | ⟨x, _ | ⟨y, _ | ⟨z, rest⟩⟩⟩
      · rfl
      · simp [b64encode]
      · simp [b64encode]
      · have hr : (b64encode rest).length % 4 = 0 :=
          ih rest (by simp [List.length_cons] at hlen ⊢; omega)
        simp only [b64encode, List.length_cons]
        omega
  exact main bs.length bs le_rfl

/-- Decoding the quads of a `b64encode` output recovers the input bytes. -/
theorem decodeQuads_b64encode :
    ∀ bs : List Nat, (∀ b ∈ bs, b < 256) → decodeQuads (b64encode bs) = Except.ok bs := by
  have main : ∀ (n : Nat) (bs : List Nat), bs.length ≤ n → (∀ b ∈ bs, b < 256) →
      decodeQuads (b64encode bs) = Except.ok bs := by
    intro n
    induction n with
    | zero =>
      intro bs hlen _
      have hbs : bs = [] := List.eq_nil_of_length_eq_zero (Nat.le_zero.mp hlen)
      subst hbs
      rfl
    | succ n ih =>
      intro bs hlen hb
      rcases bs with _ | ⟨x, _ | ⟨y, _ | ⟨z, rest⟩⟩⟩
      · rfl
      · have hx : x < 256 := hb x (by simp)
        have e1 : b64CharInv (b64Char (x / 4)) = some (x / 4) :=
          b64CharInv_b64Char _ (by omega)
        have e2 : b64CharInv (b64Char (x % 4 * 16)) = some (x % 4 * 16) :=
          b64CharInv_b64Char _ (by omega)
        simp only [b64encode, decodeQuads, e1, e2, if_pos rfl, and_self, reduceIte]
        have v1 : x / 4 * 4 + x % 4 * 16 / 16 = x := by omega
        rw [v1]
      · have hx : x < 256 := hb x (by simp)
        have hy : y < 256 := hb y (by simp)
        have e1 : b64CharInv (b64Char (x / 4)) = some (x / 4) :=
          b64CharInv_b64Char _ (by omega)
        have e2 : b64CharInv (b64Char (x % 4 * 16 + y / 16)) = some (x % 4 * 16 + y / 16) :=
          b64CharInv_b64Char _ (by omega)
        have e3 : b64CharInv (b64Char (y % 16 * 4)) = some (y % 16 * 4) :=
          b64CharInv_b64Char _ (by omega)
        have n3 : ¬ (b64Char (y % 16 * 4) = 61) := b64Char_ne_pad _ (by omega)
        simp only [b64encode, decodeQuads, e1, e2, e3, if_neg n3, if_pos rfl, reduceIte]
        have v1 : x / 4 * 4 + (x % 4 * 16 + y / 16) / 16 = x := by omega
        have v2 : (x % 4 * 16 + y / 16) % 16 * 16 + y % 16 * 4 / 4 = y := by omega
        rw [v1, v2]
      · have hx : x < 256 := hb x (by simp)
        have hy : y < 256 := hb y (by simp)
        have hz : z < 256 := hb z (by simp)
        have e1 : b64CharInv (b64Char (x / 4)) = some (x / 4) :=
          b64CharInv_b64Char _ (by omega)
        have e2 : b64CharInv (b64Char (x % 4 * 16 + y / 16)) = some (x % 4 * 16 + y / 16) :=
          b64CharInv_b64Char _ (by omega)
        have e3 : b64CharInv (b64Char (y % 16 * 4 + z / 64)) = some (y % 16 * 4 + z / 64) :=
          b64CharInv_b64Char _ (by omega)
        have e4 : b64CharInv (b64Char (z % 64)) = some (z % 64) :=
          b64CharInv_b64Char _ (by omega)
        have n3 : ¬ (b64Char (y % 16 * 4 + z / 64) = 61) := b64Char_ne_pad _ (by omega)
        have n4 : ¬ (b64Char (z % 64) = 61) := b64Char_ne_pad _ (by omega)
        have ihr : decodeQuads (b64encode rest) = Except.ok rest := by
          refine ih rest (by simp [List.length_cons] at hlen ⊢; omega) ?_
          intro b hbm
          exact hb b (by simp [hbm])
        simp only [b64encode, decodeQuads, e1, e2, e3, e4, if_neg n3, if_neg n4, ihr]
        have v1 : x / 4 * 4 + (x % 4 * 16 + y / 16) / 16 = x := by omega
        have v2 : (x % 4 * 16 + y / 16) % 16 * 16 + (y % 16 * 4 + z / 64) / 4 = y := by omega
        have v3 : (y % 16 * 4 + z / 64) % 4 * 64 + z % 64 = z := by omega
        rw [v1, v2, v3]
  intro bs
  exact main bs.length bs le_rfl

/-- Byte-level base64 roundtrip: decoding an encoded byte string gives it back. -/
theorem b64decodePy_b64encode (bs : List Nat) (h : ∀ b ∈ bs, b < 256) :
    b64decodePy (b64encode bs) = Except.ok bs := by
  unfold b64decodePy
  rw [b64encode_filter bs h]
  simp only [b64encode_length, reduceIte]
  exact decodeQuads_b64encode bs h

theorem utf8Decode_one (c : Nat) (h : c < 0x80) (tl : List Nat) :
    utf8Decode (c :: tl) = Option.map (fun cs => c :: cs) (utf8Decode tl) := by
  have e1 : (c < 0x80) = True := eq_true h
  rw [utf8Decode.eq_def]
  simp only [e1, if_true]

theorem utf8Decode_two (c : Nat) (h1 : 0x80 ≤ c) (h2 : c < 0x800) (tl : List Nat) :
    utf8Decode ((0xC0 + c / 64) :: (0x80 + c % 64) :: tl) =
      Option.map (fun cs => c :: cs) (utf8Decode tl) := by
  have e1 : (0xC0 + c / 64 < 0x80) = False := eq_false (by omega)
  have e2 : (0xC0 + c / 64 < 0xC2) = False := eq_false (by omega)
  have e3 : (0xC0 + c / 64 < 0xE0) = True := eq_true (by omega)
  have e4 : (0x80 ≤ 0x80 + c % 64 ∧ 0x80 + c % 64 < 0xC0) = True := eq_true (by omega)
  rw [utf8Decode.eq_def]
  simp only [e1, e2, e3, e4, if_true, if_false]
  have hv : (0xC0 + c / 64 - 0xC0) * 64 + (0x80 + c % 64 - 0x80) = c := by omega
  rw [hv]

theorem utf8Decode_three (c : Nat) (h1 : 0x800 ≤ c) (h2 : c < 0x10000)
    (hs : c < 0xD800 ∨ 0xE000 ≤ c) (tl : List Nat) :
    utf8Decode ((0xE0 + c / 4096) :: (0x80 + c / 64 % 64) :: (0x80 + c % 64) :: tl) =
      Option.map (fun cs => c :: cs) (utf8Decode tl) := by
  have e1 : (0xE0 + c / 4096 < 0x80) = False := eq_false (by omega)
  have e2 : (0xE0 + c / 4096 < 0xC2) = False := eq_false (by omega)
  have e3 : (0xE0 + c / 4096 < 0xE0) = False := eq_false (by omega)
  have e4 : (0xE0 + c / 4096 < 0xF0) = True := eq_true (by omega)
  rw [utf8Decode.eq_def]
  simp only [e1, e2, e3, e4, if_true, if_false]
  rw [if_pos (by omega)]
  have hv : (0xE0 + c / 4096 - 0xE0) * 4096 + (0x80 + c / 64 % 64 - 0x80) * 64 +
      (0x80 + c % 64 - 0x80) = c := by omega
  rw [hv]

theorem utf8Decode_four (c : Nat) (h1 : 0x10000 ≤ c) (h2 : c < 0x110000) (tl : List Nat) :
    utf8Decode ((0xF0 + c / 262144) :: (0x80 + c / 4096 % 64) ::
        (0x80 + c / 64 % 64) :: (0x80 + c % 64) :: tl) =
      Option.map (fun cs => c :: cs) (utf8Decode tl) := by
  have e1 : (0xF0 + c / 262144 < 0x80) = False := eq_false (by omega)
  have e2 : (0xF0 + c / 262144 < 0xC2) = False := eq_false (by omega)
  have e3 : (0xF0 + c / 262144 < 0xE0) = False := eq_false (by omega)
  have e4 : (0xF0 + c / 262144 < 0xF0) = False := eq_false (by omega)
  rw [utf8Decode.eq_def]
  simp only [e1, e2, e3, e4, if_true, if_false]
  rw [if_pos (by omega)]
  have hv : (0xF0 + c / 262144 - 0xF0) * 262144 + (0x80 + c / 4096 % 64 - 0x80) * 4096 +
      (0x80 + c / 64 % 64 - 0x80) * 64 + (0x80 + c % 64 - 0x80) = c := by omega
  rw [hv]

/-- UTF-8 roundtrip on valid unicode scalar values. -/
theorem utf8Decode_utf8Encode (cps : List Nat)
    (h : ∀ c ∈ cps, c < 0xD800 ∨ (0xDFFF < c ∧ c < 0x110000)) :
    utf8Decode (utf8Encode cps) = some cps := by
  induction cps with
  | nil => rfl
  | cons c cs ih =>
    have hc : c < 0xD800 ∨ (0xDFFF < c ∧ c < 0x110000) := h c (by simp)
    have ihr : utf8Decode (utf8Encode cs) = some cs := by
      refine ih ?_
      intro d hd
      exact h d (by simp [hd])
    by_cases h1 : c < 0x80
    · simp only [utf8Encode, utf8EncodeChar, if_pos h1, List.cons_append, List.nil_append]
      rw [utf8Decode_one c h1, ihr]
      rfl
    · by_cases h2 : c < 0x800
      · simp only [utf8Encode, utf8EncodeChar, if_neg h1, if_pos h2, List.cons_append,
          List.nil_append]
        rw [utf8Decode_two c (by omega) h2, ihr]
        rfl
      · by_cases h3 : c < 0x10000
        · simp only [utf8Encode, utf8EncodeChar, if_neg h1, if_neg h2, if_pos h3,
            List.cons_append, List.nil_append]
          rw [utf8Decode_three c (by omega) h3 (by omega), ihr]
          rfl
        · simp only [utf8Encode, utf8EncodeChar, if_neg h1, if_neg h2, if_neg h3,
            List.cons_append, List.nil_append]
          rw [utf8Decode_four c (by omega) (by omega), ihr]
          rfl

/-- Every byte of a UTF-8 encoding of one valid scalar value fits in a byte. -/
theorem utf8EncodeChar_lt (c : Nat) (hc : c < 0x110000) :
    ∀ b ∈ utf8EncodeChar c, b < 256 := by
  intro b hb
  unfold utf8EncodeChar at hb
  by_cases h1 : c < 0x80
  · rw [if_pos h1] at hb
    simp at hb
    omega
  · rw [if_neg h1] at hb
    by_cases h2 : c < 0x800
    · rw [if_pos h2] at hb
      simp at hb
      rcases hb with hb | hb <;> omega
    · rw [if_neg h2] at hb
      by_cases h3 : c < 0x10000
      · rw [if_pos h3] at hb
        simp at hb
        rcases hb with hb | hb | hb <;> omega
      · rw [if_neg h3] at hb
        simp at hb
        rcases hb with hb | hb | hb | hb <;> omega

/-- Every byte of a UTF-8 encoding of valid scalar values fits in a byte. -/
theorem utf8Encode_lt (cps : List Nat) (h : ∀ c ∈ cps, c < 0x110000) :
    ∀ b ∈ utf8Encode cps, b < 256 := by
  induction cps with
  | nil => intro b hb; simp [utf8Encode] at hb
  | cons c cs ih =>
    intro b hb
    have hc : c < 0x110000 := h c (by simp)
    simp only [utf8Encode, List.mem_append] at hb
    rcases hb with hb | hb
    · exact utf8EncodeChar_lt c hc b hb
    · exact ih (fun d hd => h d (by simp [hd])) b hb

/-- Every character of a base64 encoding of bytes is ascii. -/
theorem b64encode_lt128 (bs : List Nat) (h : ∀ b ∈ bs, b < 256) :
    ∀ c ∈ b64encode bs, c < 128 := by
  intro c hc
  rcases b64encode_chars bs h c hc with ⟨m, hm, rfl⟩ | rfl
  · exact b64Char_lt m hm
  · omega

theorem char_toNat_valid (c : Char) : c.toNat < 0xD800 ∨ (0xDFFF < c.toNat ∧ c.toNat < 0x110000) :=
  c.valid

theorem char_toNat_ofNat (n : Nat) (h : n < 0xD800 ∨ (0xDFFF < n ∧ n < 0x110000)) :
    (Char.ofNat n).toNat = n := by
  have hv : n.isValidChar := h
  simp [Char.ofNat, Char.ofNatAux, hv, Char.toNat, UInt32.toNat]

theorem map_ofNat_toNat (l : List Char) : (l.map Char.toNat).map Char.ofNat = l := by
  induction l with
  | nil => rfl
  | cons c cs ih => simp [ih, Char.ofNat_toNat]

theorem map_toNat_ofNat (l : List Nat) (h : ∀ c ∈ l, c < 0xD800) :
    (l.map Char.ofNat).map Char.toNat = l := by
  induction l with
  | nil => rfl
  | cons c cs ih =>
    have hc : c < 0xD800 := h c (by simp)
    simp only [List.map_cons]
    rw [char_toNat_ofNat c (Or.inl hc), ih (fun d hd => h d (by simp [hd]))]

theorem string_utf8_roundtrip (s : String) :
    utf8DecodeStr (utf8EncodeStr s) = Except.ok s := by
  have hvalid : ∀ c ∈ s.data.map Char.toNat, c < 0xD800 ∨ (0xDFFF < c ∧ c < 0x110000) := by
    intro c hc
    rcases List.mem_map.mp hc with ⟨ch, _, rfl⟩
    exact char_toNat_valid ch
  unfold utf8DecodeStr utf8EncodeStr
  rw [utf8Decode_utf8Encode _ hvalid]
  simp only
  rw [map_ofNat_toNat]

theorem encodeEntityId_data (s : String) :
    (encodeEntityId s).data.map Char.toNat = b64encode (utf8EncodeStr s) := by
  have hvalid : ∀ c ∈ s.data.map Char.toNat, c < 0xD800 ∨ (0xDFFF < c ∧ c < 0x110000) := by
    intro c hc
    rcases List.mem_map.mp hc with ⟨ch, _, rfl⟩
    exact char_toNat_valid ch
  have hlt : ∀ c ∈ s.data.map Char.toNat, c < 0x110000 := by
    intro c hc
    rcases hvalid c hc with h | ⟨h1, h2⟩ <;> omega
  have hascii : ∀ c ∈ b64encode (utf8EncodeStr s), c < 128 :=
    b64encode_lt128 _ (utf8Encode_lt _ hlt)
  show ((b64encode (utf8EncodeStr s)).map Char.ofNat).map Char.toNat = _
  refine map_toNat_ofNat _ ?_
  intro c hc
  have := hascii c hc
  omega

theorem asciiEncode_encodeEntityId (s : String) :
    asciiEncode (encodeEntityId s) = Except.ok (b64encode (utf8EncodeStr s)) := by
  have hvalid : ∀ c ∈ s.data.map Char.toNat, c < 0xD800 ∨ (0xDFFF < c ∧ c < 0x110000) := by
    intro c hc
    rcases List.mem_map.mp hc with ⟨ch, _, rfl⟩
    exact char_toNat_valid ch
  have hlt : ∀ c ∈ s.data.map Char.toNat, c < 0x110000 := by
    intro c hc
    rcases hvalid c hc with h | ⟨h1, h2⟩ <;> omega
  have hascii : ∀ c ∈ b64encode (utf8EncodeStr s), c < 128 :=
    b64encode_lt128 _ (utf8Encode_lt _ hlt)
  unfold asciiEncode
  simp only [encodeEntityId_data s]
  have hall : ((b64encode (utf8EncodeStr s)).all (fun c => decide (c < 128))) = true := by
    rw [List.all_eq_true]
    intro c hc
    simpa using hascii c hc
  simp [hall]

/-! ### Helper lemmas -/

/-- After `state.remove(key)` there is no stored value for the key. -/
theorem state_get_remove (s : State) (k : String) :
    State.get (State.remove s k) k = none := by
  induction s with
  | nil => rfl
  | cons p ps ih =>
    unfold State.remove at ih ⊢
    unfold State.get at ih ⊢
    by_cases h : p.1 = k
    · simpa [List.filter_cons, h] using ih
    · simpa [List.filter_cons, h, List.find?] using ih

/-- `decodeQuads` fails only with `binascii.Error`. -/
theorem decodeQuads_error :
    ∀ (l : List Nat) (e : PyErr), decodeQuads l = Except.error e → e = PyErr.binasciiError := by
  have main : ∀ (n : Nat) (l : List Nat), l.length ≤ n → ∀ e : PyErr,
      decodeQuads l = Except.error e → e = PyErr.binasciiError := by
    intro n
    induction n with
    | zero =>
      intro l hlen e h
      have hl : l = [] := List.eq_nil_of_length_eq_zero (Nat.le_zero.mp hlen)
      subst hl
      exact absurd h (by simp [decodeQuads])
    | succ n ih =>
      intro l hlen e h
      rcases l with _ | ⟨c1, _ | ⟨c2, _ | ⟨c3, _ | ⟨c4, rest⟩⟩⟩⟩
      · exact absurd h (by simp [decodeQuads])
      · exact (Except.error.inj h).symm
      · exact (Except.error.inj h).symm
      · exact (Except.error.inj h).symm
      · rcases h1 : b64CharInv c1 with _ | a <;>
          rcases h2 : b64CharInv c2 with _ | b <;>
          simp only [decodeQuads, h1, h2] at h
        · exact (Except.error.inj h).symm
        · exact (Except.error.inj h).symm
        · exact (Except.error.inj h).symm
        · by_cases hc3 : c3 = 61
          · rw [if_pos hc3] at h
            by_cases hc4 : c4 = 61 ∧ rest = []
            · rw [if_pos hc4] at h
              exact absurd h (by simp)
            · rw [if_neg hc4] at h
              exact (Except.error.inj h).symm
          · rw [if_neg hc3] at h
            rcases h3 : b64CharInv c3 with _ | d3 <;> simp only [h3] at h
            · exact (Except.error.inj h).symm
            · by_cases hc4 : c4 = 61
              · rw [if_pos hc4] at h
                by_cases hrest : rest = []
                · rw [if_pos hrest] at h
                  exact absurd h (by simp)
                · rw [if_neg hrest] at h
                  exact (Except.error.inj h).symm
              · rw [if_neg hc4] at h
                rcases h4 : b64CharInv c4 with _ | d4 <;> simp only [h4] at h
                · exact (Except.error.inj h).symm
                · rcases h5 : decodeQuads rest with e5 | tl <;> simp only [h5] at h
                  · have he : e5 = e := Except.error.inj h
                    subst he
                    exact ih rest (by simp [List.length_cons] at hlen ⊢; omega) e5 h5
                  · exact absurd h (by simp)
  intro l e h
  exact main l.length l le_rfl e h

/-- `urlsafe_b64decode` fails only with `binascii.Error`. -/
theorem b64decodePy_error (s : List Nat) (e : PyErr)
    (h : b64decodePy s = Except.error e) : e = PyErr.binasciiError := by
  unfold b64decodePy at h
  split at h
  · exact decodeQuads_error _ e h
  · exact (Except.error.inj h).symm

/-- The hint decoder at `saml2.py:89` never raises `KeyError`: its
failures are `ValueError`, `binascii.Error` or `UnicodeDecodeError`. -/
theorem decodeEntityHint_error (s : String) (e : PyErr)
    (h : decodeEntityHint s = Except.error e) :
    e = PyErr.valueError ∨ e = PyErr.binasciiError ∨ e = PyErr.unicodeDecodeError := by
  unfold decodeEntityHint at h
  rcases h1 : asciiEncode s with e1 | bytes
  · rw [h1] at h
    have he : e1 = e := Except.error.inj h
    subst he
    unfold asciiEncode at h1
    split at h1
    · exact absurd h1 (by simp)
    · exact Or.inl (Except.error.inj h1).symm
  · rw [h1] at h
    have h2a : (b64decodePy bytes >>= fun decoded => utf8DecodeStr decoded) =
        Except.error e := h
    rcases h2 : b64decodePy bytes with e2 | decoded
    · rw [h2] at h2a
      have he : e2 = e := Except.error.inj h2a
      subst he
      exact Or.inr (Or.inl (b64decodePy_error bytes e2 h2))
    · rw [h2] at h2a
      have h3 : utf8DecodeStr decoded = Except.error e := h2a
      unfold utf8DecodeStr at h3
      split at h3
      · exact absurd h3 (by simp)
      · exact Or.inr (Or.inr (Except.error.inj h3).symm)

/-- `_translate_response` fails only with `IndexError` (an empty
`authn_info()` or `authn_statement` list). -/
theorem translate_response_error (be : SamlBackend) (r : SamlAuthnResponse) (e : PyErr)
    (h : translate_response be r = Except.error e) : e = PyErr.indexError := by
  unfold translate_response at h
  rcases h1 : listGet r.authn_info 0 with e1 | ai
  · rw [h1] at h
    have he : e1 = e := Except.error.inj h
    subst he
    unfold listGet at h1
    split at h1
    · exact absurd h1 (by simp)
    · exact (Except.error.inj h1).symm
  · rw [h1] at h
    have h2a : (listGet r.authn_instants 0 >>= fun timestamp =>
        Except.ok ({ auth_info := { auth_class_ref := ai.1, timestamp := timestamp,
                                    issuer := r.issuer_text }
                     user_id := r.subject_text
                     attributes := be.to_internal be.attribute_profile r.ava } :
          InternalResponse)) = Except.error e := h
    rcases h2 : listGet r.authn_instants 0 with e2 | ts
    · rw [h2] at h2a
      have he : e2 = e := Except.error.inj h2a
      subst he
      unfold listGet at h2
      split at h2
      · exact absurd h2 (by simp)
      · exact (Except.error.inj h2).symm
    · rw [h2] at h2a
      exact Except.noConfusion h2a

/-- Shape of `authn_response`'s result: either the session state is
untouched, or it is the state with this adapter's key removed and any
error still possible afterwards is `IndexError` from translation. -/
theorem authn_response_cases (be : SamlBackend) (ctx : Context) (binding : String) :
    (authn_response be ctx binding).2 = ctx.state ∨
    ((authn_response be ctx binding).2 = State.remove ctx.state be.name ∧
      ∀ e, (authn_response be ctx binding).1 = Except.error e → e = PyErr.indexError) := by
  unfold authn_response
  rcases h1 : dictGet ctx.request "SAMLResponse" with e | sr
  · exact Or.inl rfl
  · simp only []
    by_cases hne : sr = ""
    · rw [if_pos hne]
      exact Or.inl rfl
    · rw [if_neg hne]
      rcases hp : be.sp.parse_authn_request_response sr binding with e | response
      · exact Or.inl rfl
      · simp only []
        rcases hr : dictGet ctx.request "RelayState" with e | relay
        · exact Or.inl rfl
        · simp only []
          by_cases hv : State.get ctx.state be.name ≠ some relay
          · rw [if_pos hv]
            exact Or.inl rfl
          · rw [if_neg hv]
            rcases ht : translate_response be response with e | ir
            · refine Or.inr ⟨rfl, ?_⟩
              intro e2 h2
              have he : e = e2 := Except.error.inj h2
              subst he
              exact translate_response_error be response e ht
            · refine Or.inr ⟨rfl, ?_⟩
              intro e2 h2
              exact absurd h2 (by simp)

/-- `authn_request` fails only with the construction error or the
parameter error. -/
theorem authn_request_error (be : SamlBackend) (ctx : Context) (eid : String)
    (req : InternalRequest) (e : PyErr)
    (h : (authn_request be ctx eid req).1 = Except.error e) :
    e = PyErr.satosaAuthn "Failed to construct the AuthnRequest" ∨
    e = PyErr.satosaAuthn "Parameter error" := by
  unfold authn_request at h
  rcases htry : authn_request_try be ctx eid with e1 | v
  · rw [htry] at h
    exact Or.inl (Except.error.inj h).symm
  · rw [htry] at h
    obtain ⟨bnd, ht⟩ := v
    simp only [] at h
    by_cases hb : bnd = BINDING_HTTP_REDIRECT
    · rw [if_pos hb] at h
      rcases hloc : findLocation ht.headers with _ | loc <;> simp only [hloc] at h
      · exact Or.inr (Except.error.inj h).symm
      · exact absurd h (by simp)
    · rw [if_neg hb] at h
      exact absurd h (by simp)

/-- `mapM` over a one-element list in the `Except` monad. -/
theorem mapM_singleton {α β : Type} (f : α → Except PyErr β) (a : α) (b : β)
    (h : f a = Except.ok b) : List.mapM f [a] = Except.ok [b] := by
  unfold List.mapM List.mapM.loop
  rw [h]
  rfl

/-! ### The claims -/

/-- C1, counterexample: after a completed (failed) `authn_response`
attempt — here a relay-state mismatch — the session still holds the
pending relay-state token under the adapter's name key, contradicting
the claim that every completed attempt leaves no pending token. -/
theorem authn_response_failure_keeps_token_cex :
    authn_response beBase ctxMismatch "binding" =
      (Except.error (PyErr.satosaAuthn "State did not match relay state"),
        [("Saml2", "relay-Y")]) ∧
    State.get [("Saml2", "relay-Y")] "Saml2" = some "relay-Y" :=
  ⟨rfl, rfl⟩

/-- C1, amended: `authn_response` clears the stored relay-state token
only when relay-state validation succeeds (then it is cleared even if
translation fails afterwards); on the three failure paths — missing
response, parse failure, relay-state mismatch — the session state is
returned unchanged, so a pending token persists. -/
theorem authn_response_relay_cleanup (be : SamlBackend) (ctx : Context) (binding : String) :
    (((authn_response be ctx binding).1 =
        Except.error (PyErr.satosaAuthn "Missing Response") ∨
      (authn_response be ctx binding).1 =
        Except.error (PyErr.satosaAuthn "Failed to parse authn request") ∨
      (authn_response be ctx binding).1 =
        Except.error (PyErr.satosaAuthn "State did not match relay state")) →
      (authn_response be ctx binding).2 = ctx.state) ∧
    (∀ sr relay response,
      dictGet ctx.request "SAMLResponse" = Except.ok sr → sr ≠ "" →
      be.sp.parse_authn_request_response sr binding = Except.ok response →
      dictGet ctx.request "RelayState" = Except.ok relay →
      State.get ctx.state be.name = some relay →
      State.get (authn_response be ctx binding).2 be.name = none) := by
  constructor
  · intro hdisj
    rcases authn_response_cases be ctx binding with h | ⟨h2, h3⟩
    · exact h
    · exfalso
      rcases hdisj with h | h | h <;> · have hcon := h3 _ h
                                        simp at hcon
  · intro sr relay response hsr hne hp hr hv
    unfold authn_response
    simp only [hsr]
    rw [if_neg hne]
    simp only [hp, hr]
    rw [if_neg (not_not_intro hv)]
    rcases ht : translate_response be response with e | ir <;> simp only [ht] <;>
      exact state_get_remove ctx.state be.name

/-- C1, witness for the amended theorem: on a matching relay state the
session state afterwards holds no token under the adapter's key. -/
theorem authn_response_relay_cleanup_witness :
    State.get (authn_response beBase ctxMatch "binding").2 "Saml2" = none :=
  (authn_response_relay_cleanup beBase ctxMatch "binding").2
    "resp" "relay-Y" respOk rfl (by decide) rfl rfl rfl

/-- C2: with a non-empty `SAMLResponse` that parses and an echoed
`RelayState` present, `authn_response` fails with the relay-state
mismatch error exactly when no equal token is stored under the adapter's
name key; in particular with no stored token it returns the mismatch
error with the state untouched — an error return, so the downstream
callback (which only appears inside an `Except.ok` result) is not
invoked. -/
theorem relay_state_validation_iff (be : SamlBackend) (ctx : Context)
    (binding sr relay : String) (response : SamlAuthnResponse)
    (hsr : dictGet ctx.request "SAMLResponse" = Except.ok sr) (hne : sr ≠ "")
    (hp : be.sp.parse_authn_request_response sr binding = Except.ok response)
    (hr : dictGet ctx.request "RelayState" = Except.ok relay) :
    ((authn_response be ctx binding).1 =
        Except.error (PyErr.satosaAuthn "State did not match relay state") ↔
      State.get ctx.state be.name ≠ some relay) ∧
    (State.get ctx.state be.name = none →
      authn_response be ctx binding =
        (Except.error (PyErr.satosaAuthn "State did not match relay state"), ctx.state)) := by
  by_cases hv : State.get ctx.state be.name ≠ some relay
  · have hred : authn_response be ctx binding =
        (Except.error (PyErr.satosaAuthn "State did not match relay state"), ctx.state) := by
      unfold authn_response
      simp only [hsr]
      rw [if_neg hne]
      simp only [hp, hr]
      rw [if_pos hv]
    constructor
    · rw [hred]
      exact ⟨fun _ => hv, fun _ => rfl⟩
    · intro _
      exact hred
  · constructor
    · constructor
      · intro habs
        exfalso
        unfold authn_response at habs
        simp only [hsr] at habs
        rw [if_neg hne] at habs
        simp only [hp, hr] at habs
        rw [if_neg hv] at habs
        rcases ht : translate_response be response with e | ir <;> simp only [ht] at habs
        · have he : e = PyErr.indexError := translate_response_error be response e ht
          subst he
          have := Except.error.inj habs
          simp at this
        · exact absurd habs (by simp)
      · intro h
        exact (hv h).elim
    · intro hnone
      have hveq := not_ne_iff.mp hv
      rw [hnone] at hveq
      simp at hveq

/-- C2, witness: with no token ever issued for the session, validation
fails with the mismatch error and the state is untouched. -/
theorem relay_state_validation_iff_witness :
    authn_response beBase ctxNoToken "binding" =
      (Except.error (PyErr.satosaAuthn "State did not match relay state"),
        ctxNoToken.state) :=
  (relay_state_validation_iff beBase ctxNoToken "binding" "resp" "relay-X" respOk
    rfl (by decide) rfl rfl).2 rfl

/-- C3, counterexample: with two IdPs configured and a mirrored-entity
hint "a" that is not decodable base64, `start_auth` raises
`binascii.Error` (only `KeyError` is caught at `saml2.py:91`) instead of
delegating to `disco_query`, which here would have returned a discovery
redirect. -/
theorem start_auth_undecodable_hint_cex :
    (start_auth beBase ctxBadHint emptyInternalRequest).1 =
      Except.error PyErr.binasciiError ∧
    (disco_query beBase ctxBadHint emptyInternalRequest).1 =
      Except.ok (Resp.seeOther "https://disco.example/?return=https://sp.example/disco") :=
  ⟨rfl, rfl⟩

/-- C3, amended: with more than one IdP configured, an absent
mirrored-entity hint (a `KeyError`) falls through to `disco_query`
without raising, but a present hint whose base64/UTF-8 decoding fails
raises that decode error instead of delegating to discovery. -/
theorem start_auth_hint_fallthrough (be : SamlBackend) (ctx : Context)
    (req : InternalRequest) (hn : be.sp.identity_providers.length ≠ 1) :
    (dictGet ctx.internal_data "mirror.target_entity_id" =
        Except.error (PyErr.keyError "mirror.target_entity_id") →
      start_auth be ctx req = disco_query be ctx req) ∧
    (∀ enc e, dictGet ctx.internal_data "mirror.target_entity_id" = Except.ok enc →
      decodeEntityHint enc = Except.error e →
      start_auth be ctx req = (Except.error e, ctx.state)) := by
  constructor
  · intro h
    unfold start_auth
    rw [if_neg hn, h]
  · intro enc e h hd
    unfold start_auth
    rw [if_neg hn, h]
    simp only []
    rw [hd]
    rcases decodeEntityHint_error enc e hd with rfl | rfl | rfl <;> rfl

/-- C3, witness for the amended theorem: an absent hint delegates to
discovery; the undecodable hint "a" raises `binascii.Error`. -/
theorem start_auth_hint_fallthrough_witness :
    start_auth beBase ctxEmpty emptyInternalRequest =
      disco_query beBase ctxEmpty emptyInternalRequest ∧
    start_auth beBase ctxBadHint emptyInternalRequest =
      (Except.error PyErr.binasciiError, ctxBadHint.state) :=
  ⟨(start_auth_hint_fallthrough beBase ctxEmpty emptyInternalRequest (by decide)).1 rfl,
   (start_auth_hint_fallthrough beBase ctxBadHint emptyInternalRequest (by decide)).2
     "a" PyErr.binasciiError rfl rfl⟩

/-- C4: with exactly one IdP in the federation metadata, `start_auth`
goes straight to `authn_request` with that IdP's entity id, and its
result does not depend on the mirrored-entity hint in the context's
internal data (so neither the hint nor the discovery service is
consulted). -/
theorem start_auth_single_idp_bypass (be : SamlBackend) (ctx : Context)
    (req : InternalRequest) (h : be.sp.identity_providers.length = 1) :
    start_auth be ctx req =
      authn_request be ctx (be.sp.identity_providers.getD 0 "") req ∧
    ∀ d, start_auth be { ctx with internal_data := d } req = start_auth be ctx req := by
  constructor
  · unfold start_auth
    rw [if_pos h]
  · intro d
    unfold start_auth
    rw [if_pos h, if_pos h]
    rfl

/-- C4, witness: the single-IdP backend routes directly to
`authn_request`. -/
theorem start_auth_single_idp_bypass_witness :
    start_auth beSingle ctxEmpty emptyInternalRequest =
      authn_request beSingle ctxEmpty
        (beSingle.sp.identity_providers.getD 0 "") emptyInternalRequest :=
  (start_auth_single_idp_bypass beSingle ctxEmpty emptyInternalRequest rfl).1

/-- C5: decoding the URL-safe-base64 UTF-8 encoding of an entity id (the
encoding emitted by `get_metadata_desc`, the decoding performed by
`start_auth`) returns the original entity id. -/
theorem entity_id_codec_roundtrip (entity_id : String) :
    decodeEntityHint (encodeEntityId entity_id) = Except.ok entity_id := by
  have hvalid : ∀ c ∈ entity_id.data.map Char.toNat,
      c < 0xD800 ∨ (0xDFFF < c ∧ c < 0x110000) := by
    intro c hc
    rcases List.mem_map.mp hc with ⟨ch, _, rfl⟩
    exact char_toNat_valid ch
  have hlt : ∀ c ∈ entity_id.data.map Char.toNat, c < 0x110000 := by
    intro c hc
    rcases hvalid c hc with h | ⟨h1, h2⟩ <;> omega
  have hbytes : ∀ b ∈ utf8EncodeStr entity_id, b < 256 := utf8Encode_lt _ hlt
  unfold decodeEntityHint
  rw [asciiEncode_encodeEntityId entity_id]
  show (b64decodePy (b64encode (utf8EncodeStr entity_id)) >>= fun decoded =>
      utf8DecodeStr decoded) = Except.ok entity_id
  rw [b64decodePy_b64encode _ hbytes]
  show utf8DecodeStr (utf8EncodeStr entity_id) = Except.ok entity_id
  exact string_utf8_roundtrip entity_id

/-- C6, counterexample: a malformed `contact_person` sub-section (here a
number, so iterating it raises `TypeError`, which the block's
`except KeyError` does not catch) aborts the whole listing with an
exception instead of being omitted from the description. -/
theorem get_metadata_desc_malformed_cex :
    get_metadata_desc [fileBad] = Except.error PyErr.typeError := rfl

/-- C6, amended: one description per entity with the organization,
contact-person and ui sections populated independently; a *missing*
sub-section (an absent key) is omitted from the description without
raising, and any failure in the organization section is swallowed by its
bare `except`; but malformed contact-person or ui data whose processing
raises anything other than `KeyError` aborts the whole listing. -/
theorem metadata_desc_missing_sections (entity : PyVal) (eid : String)
    (d : List (String × PyVal))
    (hent : entity.getItem eid = Except.ok (PyVal.dict d))
    (horg : d.find? (fun p => p.1 = "organization") = none)
    (hcp : d.find? (fun p => p.1 = "contact_person") = none)
    (hui : d.find? (fun p => p.1 = "idpsso_descriptor") = none) :
    buildDescription entity eid =
      Except.ok { entity_id := encodeEntityId eid, organization := none,
                  contact_persons := [], ui_info := none } ∧
    get_metadata_desc [{ entity_descr := some eid, entities_descr := [], entity := entity }] =
      Except.ok [{ entity_id := encodeEntityId eid, organization := none,
                   contact_persons := [], ui_info := none }] := by
  have horg2 : PyVal.getItem (PyVal.dict d) "organization" =
      Except.error (PyErr.keyError "organization") := by
    show dictGet d "organization" = _
    unfold dictGet
    rw [horg]
  have hcp2 : PyVal.getItem (PyVal.dict d) "contact_person" =
      Except.error (PyErr.keyError "contact_person") := by
    show dictGet d "contact_person" = _
    unfold dictGet
    rw [hcp]
  have hui2 : PyVal.getItem (PyVal.dict d) "idpsso_descriptor" =
      Except.error (PyErr.keyError "idpsso_descriptor") := by
    show dictGet d "idpsso_descriptor" = _
    unfold dictGet
    rw [hui]
  have hborg : buildOrganization entity eid =
      Except.error (PyErr.keyError "organization") := by
    unfold buildOrganization
    rw [hent]
    simp only []
    rw [horg2]
  have haddorg : ∀ desc : MetadataDescription, addOrganization desc entity eid = desc := by
    intro desc
    unfold addOrganization
    rw [hborg]
  have haddcp : ∀ desc : MetadataDescription,
      addContacts desc entity eid = Except.ok desc := by
    intro desc
    unfold addContacts
    rw [hent]
    simp only []
    rw [hcp2]
  have haddui : ∀ desc : MetadataDescription,
      addUIInfo desc entity eid = Except.ok desc := by
    intro desc
    unfold addUIInfo
    rw [hent]
    simp only []
    rw [hui2]
  have hbD : buildDescription entity eid =
      Except.ok { entity_id := encodeEntityId eid, organization := none,
                  contact_persons := [], ui_info := none } := by
    unfold buildDescription
    rw [haddorg, haddcp]
    show addUIInfo
      { entity_id := encodeEntityId eid, organization := none,
        contact_persons := [], ui_info := none } entity eid = _
    exact haddui _
  refine ⟨hbD, ?_⟩
  unfold get_metadata_desc
  rw [mapM_singleton (fun f => (metadataEntityIds f).mapM (buildDescription f.entity))
    { entity_descr := some eid, entities_descr := [], entity := entity }
    [{ entity_id := encodeEntityId eid, organization := none,
       contact_persons := [], ui_info := none }]
    (by
      show List.mapM (buildDescription entity) [eid] = _
      exact mapM_singleton _ eid _ hbD)]
  rfl

/-- C6, witness for the amended theorem: an entity with all three
sections absent yields one description with only the encoded entity id
set, without raising. -/
theorem metadata_desc_missing_sections_witness :
    buildDescription entityPlain "https://idp1.example" =
      Except.ok { entity_id := encodeEntityId "https://idp1.example", organization := none,
                  contact_persons := [], ui_info := none } :=
  (metadata_desc_missing_sections entityPlain "https://idp1.example"
    [("other", PyVal.num 1)] rfl rfl rfl rfl).1

/-- C7: when request construction succeeds under the redirect binding,
`authn_request` returns a redirect to the first "Location" header of the
computed binding arguments, and raises the parameter error when no
"Location" header is present. -/
theorem authn_request_redirect_location (be : SamlBackend) (ctx : Context)
    (eid : String) (req : InternalRequest) (dest : String)
    (acs : List (String × String)) (acs0 : String × String)
    (rid msg : String) (ht : HtArgs)
    (hpb : be.sp.pick_binding samlBackendBindings eid =
      Except.ok (BINDING_HTTP_REDIRECT, dest))
    (hacs : be.sp.acs_endpoints = some acs)
    (hacs0 : listGet acs 0 = Except.ok acs0)
    (hcar : be.sp.create_authn_request dest acs0.2
      (create_name_id_policy be (be.hash_type_config.getD "persistent")) =
      Except.ok (rid, msg))
    (happ : be.sp.apply_binding BINDING_HTTP_REDIRECT msg dest ctx.rnd = Except.ok ht) :
    (authn_request be ctx eid req).1 =
      match findLocation ht.headers with
      | some loc => Except.ok (Resp.seeOther loc)
      | none => Except.error (PyErr.satosaAuthn "Parameter error") := by
  have htry : authn_request_try be ctx eid = Except.ok (BINDING_HTTP_REDIRECT, ht) := by
    unfold authn_request_try
    rw [hpb]
    simp only []
    rw [hacs]
    simp only []
    rw [hacs0]
    simp only []
    rw [hcar]
    simp only []
    rw [happ]
  unfold authn_request
  rw [htry]
  simp only [eq_self_iff_true, if_true]
  rcases hloc : findLocation ht.headers with _ | loc <;> simp only [hloc]

/-- C7, witness: concrete oracles producing a "Location" header yield the
redirect response to it. -/
theorem authn_request_redirect_location_witness :
    (authn_request beBase ctxEmpty "https://idp1.example" emptyInternalRequest).1 =
      Except.ok (Resp.seeOther "https://idp1.example/sso?SAMLRequest=x") := by
  have h := authn_request_redirect_location beBase ctxEmpty "https://idp1.example"
    emptyInternalRequest "https://idp1.example/sso"
    [("https://sp.example/acs/post", BINDING_HTTP_POST)]
    ("https://sp.example/acs/post", BINDING_HTTP_POST) "id-1" "authn-request-xml"
    { headers := [("Location", "https://idp1.example/sso?SAMLRequest=x")], data := "" }
    rfl rfl rfl rfl rfl
  exact h

/-- C8, counterexample: a callback request without any `SAMLResponse` key
raises `KeyError` from the dict subscript at `saml2.py:185`, not the
"Missing Response" error the claim requires for an absent payload. -/
theorem authn_response_absent_payload_cex :
    authn_response beBase ctxNoSamlKey "binding" =
      (Except.error (PyErr.keyError "SAMLResponse"), ctxNoSamlKey.state) ∧
    PyErr.keyError "SAMLResponse" ≠ PyErr.satosaAuthn "Missing Response" :=
  ⟨rfl, by simp⟩

/-- C8, amended: when the `SAMLResponse` key is present but its value is
empty, `authn_response` raises the "Missing Response" error before any
parsing, leaving the state untouched (this holds for every parse oracle);
an entirely absent key instead raises `KeyError`. -/
theorem authn_response_empty_payload (be : SamlBackend) (ctx : Context) (binding : String)
    (h : dictGet ctx.request "SAMLResponse" = Except.ok "") :
    authn_response be ctx binding =
      (Except.error (PyErr.satosaAuthn "Missing Response"), ctx.state) := by
  unfold authn_response
  rw [h]
  simp

/-- C8, witness for the amended theorem. -/
theorem authn_response_empty_payload_witness :
    authn_response beBase ctxEmptySaml "binding" =
      (Except.error (PyErr.satosaAuthn "Missing Response"), ctxEmptySaml.state) :=
  authn_response_empty_payload beBase ctxEmptySaml "binding" rfl

/-- C9: `disco_response` raises "No IDP chosen" exactly when the
`entityID` query parameter is absent; when it is present it re-enters
`authn_request` targeting the chosen entity id with an empty internal
request, and never raises "No IDP chosen". -/
theorem disco_response_entity_id (be : SamlBackend) (ctx : Context) :
    (dictGet ctx.request "entityID" = Except.error (PyErr.keyError "entityID") →
      disco_response be ctx = (Except.error (PyErr.satosaAuthn "No IDP chosen"), ctx.state)) ∧
    (∀ eid, dictGet ctx.request "entityID" = Except.ok eid →
      disco_response be ctx = authn_request be ctx eid emptyInternalRequest ∧
      (disco_response be ctx).1 ≠ Except.error (PyErr.satosaAuthn "No IDP chosen")) := by
  constructor
  · intro h
    unfold disco_response
    rw [h]
  · intro eid h
    have hred : disco_response be ctx = authn_request be ctx eid emptyInternalRequest := by
      unfold disco_response
      rw [h]
    refine ⟨hred, ?_⟩
    rw [hred]
    intro habs
    rcases authn_request_error be ctx eid emptyInternalRequest _ habs with h1 | h1 <;>
      simp at h1

/-- C9, witness: absent `entityID` raises "No IDP chosen"; a present one
resumes `authn_request` at the chosen entity. -/
theorem disco_response_entity_id_witness :
    disco_response beBase ctxEmpty =
      (Except.error (PyErr.satosaAuthn "No IDP chosen"), ctxEmpty.state) ∧
    disco_response beBase ctxDiscoChoice =
      authn_request beBase ctxDiscoChoice "https://idp2.example" emptyInternalRequest :=
  ⟨(disco_response_entity_id beBase ctxEmpty).1 rfl,
   ((disco_response_entity_id beBase ctxDiscoChoice).2 "https://idp2.example" rfl).1⟩

/-- C10: when `authn_request` fails inside its construction `try` (raising
"Failed to construct the AuthnRequest"), the session state is returned
unchanged: the relay-state token is stored only after construction
succeeds. -/
theorem authn_request_failure_state_unchanged (be : SamlBackend) (ctx : Context)
    (eid : String) (req : InternalRequest)
    (h : (authn_request be ctx eid req).1 =
      Except.error (PyErr.satosaAuthn "Failed to construct the AuthnRequest")) :
    (authn_request be ctx eid req).2 = ctx.state := by
  unfold authn_request at h ⊢
  rcases htry : authn_request_try be ctx eid with e | v
  · rfl
  · rw [htry] at h
    obtain ⟨bnd, ht⟩ := v
    simp only [] at h
    by_cases hb : bnd = BINDING_HTTP_REDIRECT
    · rw [if_pos hb] at h
      rcases hloc : findLocation ht.headers with _ | loc <;> simp only [hloc] at h
      · have hcon := Except.error.inj h
        simp at hcon
      · simp at h
    · rw [if_neg hb] at h
      simp at h

/-- C10, witness: a failing binding negotiation leaves the session state
unchanged. -/
theorem authn_request_failure_state_unchanged_witness :
    (authn_request beFail ctxEmpty "https://idp1.example" emptyInternalRequest).2 =
      ctxEmpty.state :=
  authn_request_failure_state_unchanged beFail ctxEmpty "https://idp1.example"
    emptyInternalRequest rfl

end Satosa
